import Mathlib

/-!
Shallow embedding of the order-book synchronization and message-routing layer
of the two websocket exchange adapters in this repository:
`python/ccxt/pro/ripio.py` and `python/ccxtpro/bitmex.py`.

Pure data (decoded frames, order books, subscription maps) is represented by
Lean structures; Python dictionaries keyed by strings become association
lists preserving insertion order; Python exceptions become an explicit
`PyErr` value threaded through the results; in-place mutation of the order
book becomes explicit state passing, with the state reached at the moment an
exception is raised returned alongside the error (Python mutates objects in
place, so partial mutation survives a raise).

Helpers of the ccxt base classes that are not part of the two source files
(`OrderBook.reset`, the book-side `store`/`restore`, `safe_*` extraction,
`find_broadly_matched_key`) are modelled from the specification; each such
definition carries a doc comment saying so.
-/

/-- A Python exception value, as observed by a caller. -/
inductive PyErr where
  | typeError (msg : String)
  | keyError
  | exchangeError (msg : String)
  | rateLimitExceeded (msg : String)
  | notImplemented (msg : String)
  | netError (msg : String)
deriving DecidableEq, Repr

/-- An effect on the pending waiters of a connection: the client either
resolves the waiter registered under a routing key or rejects it with an
exception (`client.resolve` / `client.reject`). -/
inductive WaiterEvent where
  | resolved (key : String)
  | rejected (key : String) (e : PyErr)
deriving DecidableEq, Repr

/-- Lookup in an insertion-ordered association list (a Python dict read
`d[k]` / `d.get(k)`). -/
def alookup {α : Type} (l : List (String × α)) (k : String) : Option α :=
  match l with
  | [] => none
  | (k', v) :: rest => if k' = k then some v else alookup rest k

/-- Assignment in an insertion-ordered association list (a Python dict write
`d[k] = v`: replaces the value in place when the key exists, otherwise
appends, preserving insertion order). -/
def aupdate {α : Type} (l : List (String × α)) (k : String) (v : α) :
    List (String × α) :=
  match l with
  | [] => [(k, v)]
  | (k', v') :: rest =>
    if k' = k then (k, v) :: rest else (k', v') :: aupdate rest k v

theorem alookup_aupdate_ne {α : Type} (l : List (String × α)) (k k' : String)
    (v : α) (h : k' ≠ k) : alookup (aupdate l k' v) k = alookup l k := by
  induction l with
  | nil => simp [alookup, aupdate, h]
  | cons hd tl ih =>
    obtain ⟨kh, vh⟩ := hd
    by_cases hk : kh = k'
    · subst hk
      simp [alookup, aupdate, h]
    · simp only [aupdate, if_neg hk]
      by_cases hk2 : kh = k
      · subst hk2
        simp [alookup]
      · simp [alookup, hk2, ih]

theorem alookup_aupdate_self {α : Type} (l : List (String × α)) (k : String)
    (v : α) : alookup (aupdate l k v) k = some v := by
  induction l with
  | nil => simp [alookup, aupdate]
  | cons hd tl ih =>
    obtain ⟨kh, vh⟩ := hd
    by_cases hk : kh = k
    · subst hk
      simp [alookup, aupdate]
    · simp [alookup, aupdate, hk, ih]

/-- Python str.lower on the ASCII market ids used in routing keys,
character by character. -/
def strLower (s : String) : String := ⟨s.data.map Char.toLower⟩

/-- Python comparison `a > b` on values that may be `None`: comparing an
int with `None` (on either side) raises a `TypeError` in Python 3. -/
def pyGt (a b : Option Int) : Except PyErr Bool :=
  match a, b with
  | some x, some y => .ok (decide (y < x))
  | _, _ => .error (.typeError "int and NoneType are not orderable")

namespace ripio

/-- One price level entry of a decoded ripio delta payload
(wire shape: amount, total, price — decimal strings, decoded to numbers). -/
structure Delta where
  amount : Int
  total : Int
  price : Int
deriving DecidableEq, Repr

/-- The decoded (base64 + JSON) payload of a ripio frame:
buy levels, sell levels and the reported sequence number.
`updated_id` is extracted with `safe_integer`, hence optional. -/
structure Payload where
  buy : List Delta
  sell : List Delta
  updated_id : Option Int
deriving DecidableEq, Repr

/-- An inbound ripio frame after decoding. A frame without a payload field
models `safe_string(message, 'payload') is None`; `publishTime` is the
already-parsed (`parse8601`) timestamp of the envelope. -/
structure Frame where
  messageId : Option String
  payload : Option Payload
  publishTime : Option Int
deriving DecidableEq, Repr

/-- The mutable order-book entity of `self.orderbooks[symbol]`:
bid/ask sides as price-amount pairs, the nonce, the timestamp and the
pending-frame buffer `orderbook.cache`. -/
structure OrderBook where
  bids : List (Int × Int)
  asks : List (Int × Int)
  nonce : Option Int
  timestamp : Option Int
  cache : List Frame
deriving DecidableEq, Repr

/-- The channel handler stored under the subscription's method field. -/
inductive Handler where
  | orderBook
  | ticker
  | trade
deriving DecidableEq, Repr

/-- A ripio subscription record as built in `watch_order_book` /
`watch_ticker` / `watch_trades`. -/
structure Subscription where
  name : String
  symbol : String
  messageHash : String
  method : Option Handler
deriving DecidableEq, Repr

/-- A REST order-book snapshot as returned by `fetch_order_book`. -/
structure Snapshot where
  bids : List (Int × Int)
  asks : List (Int × Int)
  nonce : Int
  timestamp : Option Int
deriving DecidableEq, Repr

/-- The per-connection client and exchange state touched by the
order-book code path: the subscriptions dict, the orderbooks dict, the
list of snapshot fetches scheduled so far (by routing key) and whether the
connection is still up. -/
structure State where
  subscriptions : List (String × Subscription)
  orderbooks : List (String × OrderBook)
  scheduledFetches : List String
  connected : Bool
deriving DecidableEq, Repr

/-- Modelled from the spec: the base `OrderBookSide.store(price, amount)` —
upsert semantics, an amount of 0 removes the level, a positive amount
replaces an existing level or inserts a new one. -/
def store (bookside : List (Int × Int)) (price amount : Int) :
    List (Int × Int) :=
  if amount = 0 then bookside.filter (fun l => !(l.1 == price))
  else if bookside.any (fun l => l.1 == price) then
    bookside.map (fun l => if l.1 == price then (price, amount) else l)
  else bookside ++ [(price, amount)]

/-- `ripio.handle_delta`: store one delta into a book side. -/
def handle_delta (bookside : List (Int × Int)) (delta : Delta) :
    List (Int × Int) :=
  store bookside delta.price delta.amount

/-- The body of `ripio.handle_deltas(self, bookside, deltas)`: fold
`handle_delta` over the batch in order. -/
def handle_deltas (bookside : List (Int × Int)) (deltas : List Delta) :
    List (Int × Int) :=
  deltas.foldl handle_delta bookside

/-- Number of parameters of `ripio.handle_deltas` besides `self`:
`(bookside, deltas)`. -/
def handle_deltas_paramCount : Nat := 2

/-- A positional Python call to `handle_deltas` passing `extra` additional
arguments after `(bookside, deltas)`. Python binds arguments before the
body runs, so an arity mismatch raises a `TypeError` without executing any
part of the body. -/
def call_handle_deltas (bookside : List (Int × Int)) (deltas : List Delta)
    (extra : List (Option Int)) : Except PyErr (List (Int × Int)) :=
  if 2 + extra.length = handle_deltas_paramCount then
    .ok (handle_deltas bookside deltas)
  else .error (.typeError "handle_deltas wrong number of positional args")

/-- `ripio.handle_order_book_message`: decode the payload, compare the
reported sequence number against the current nonce, and on a newer delta
apply the ask side, then the bid side, then advance nonce and timestamp.
The call sites pass `orderbook['nonce']` as an extra third argument to
`handle_deltas`. The returned book is the state at the moment of return or
raise (Python mutates the book in place), paired with the raised exception
if any. -/
def handle_order_book_message (m : Frame) (ob : OrderBook) :
    OrderBook × Option PyErr :=
  match m.payload with
  | none => (ob, none)
  | some data =>
    match pyGt data.updated_id ob.nonce with
    | .error e => (ob, some e)
    | .ok gt =>
      if gt then
        match call_handle_deltas ob.asks data.sell [ob.nonce] with
        | .error e => (ob, some e)
        | .ok newAsks =>
          let ob1 : OrderBook := { ob with asks := newAsks }
          match call_handle_deltas ob1.bids data.buy [ob1.nonce] with
          | .error e => (ob1, some e)
          | .ok newBids =>
            ({ ob1 with
                bids := newBids
                nonce := data.updated_id
                timestamp := m.publishTime }, none)
      else (ob, none)

/-- `ripio.handle_order_book`: look up the book for the subscription's
symbol; with no book, return the message untouched; with an unset nonce,
append the raw frame to the book's cache; otherwise run
`handle_order_book_message` and resolve the waiter for the routing key.
Returns the updated orderbooks dict, the waiter events, and the raised
exception if any. -/
def handle_order_book (m : Frame) (sub : Subscription)
    (orderbooks : List (String × OrderBook)) :
    List (String × OrderBook) × List WaiterEvent × Option PyErr :=
  match alookup orderbooks sub.symbol with
  | none => (orderbooks, [], none)
  | some ob =>
    match ob.nonce with
    | none =>
      (aupdate orderbooks sub.symbol { ob with cache := ob.cache ++ [m] },
       [], none)
    | some _ =>
      match handle_order_book_message m ob with
      | (ob', some e) => (aupdate orderbooks sub.symbol ob', [], some e)
      | (ob', none) =>
        (aupdate orderbooks sub.symbol ob',
         [WaiterEvent.resolved sub.messageHash], none)

/-- Modelled from the spec: the base `OrderBook.reset(snapshot)` — install
the snapshot's bids, asks, nonce and timestamp into the book and clear the
pending buffer (the spec: the buffer is drained exactly once, the instant a
snapshot is installed). -/
def reset (ob : OrderBook) (s : Snapshot) : OrderBook :=
  let _ := ob
  { bids := s.bids
    asks := s.asks
    nonce := some s.nonce
    timestamp := s.timestamp
    cache := [] }

/-- Replay of the buffered frames, in arrival order, through
`handle_order_book_message`; stops at the first raise, returning the book
state reached so far together with the exception. -/
def replay (msgs : List Frame) (ob : OrderBook) : OrderBook × Option PyErr :=
  match msgs with
  | [] => (ob, none)
  | m :: rest =>
    match handle_order_book_message m ob with
    | (ob', none) => replay rest ob'
    | (ob', some e) => (ob', some e)

/-- `ripio.fetch_order_book_snapshot`: with the REST fetch outcome given as
an argument (the network round-trip is an external collaborator), install
the snapshot, unroll the accumulated frames and resolve the waiter; any
exception — from the fetch itself or raised during the replay — is caught
and rejects the waiter for the routing key instead. -/
def fetch_order_book_snapshot (fetched : Except PyErr Snapshot)
    (sub : Subscription) (st : State) : State × List WaiterEvent :=
  match fetched with
  | .error e => (st, [WaiterEvent.rejected sub.messageHash e])
  | .ok snapshot =>
    match alookup st.orderbooks sub.symbol with
    | none => (st, [WaiterEvent.rejected sub.messageHash PyErr.keyError])
    | some ob =>
      match replay ob.cache (reset ob snapshot) with
      | (ob2, some e) =>
        ({ st with orderbooks := aupdate st.orderbooks sub.symbol ob2 },
         [WaiterEvent.rejected sub.messageHash e])
      | (ob2, none) =>
        ({ st with orderbooks := aupdate st.orderbooks sub.symbol ob2 },
         [WaiterEvent.resolved sub.messageHash])

/-- A freshly created `self.order_book(\x7b\x7d)`: empty sides, unset
nonce, empty cache. -/
def emptyOrderBook : OrderBook :=
  { bids := [], asks := [], nonce := none, timestamp := none, cache := [] }

/-- The subscription-setup portion of `ripio.watch_order_book`: derive the
routing key `orderbook_<lowercased market id>`; when the key is not yet in
`client.subscriptions`, create a fresh order book, register the
subscription and schedule the (single) delayed snapshot fetch; when the key
is already present, attach to the existing state and change nothing. -/
def watch_order_book_setup (symbol marketId : String) (st : State) : State :=
  let messageHash := "orderbook_" ++ strLower marketId
  if (alookup st.subscriptions messageHash).isSome then st
  else
    let sub : Subscription :=
      { name := "orderbook", symbol := symbol, messageHash := messageHash,
        method := some Handler.orderBook }
    { st with
        orderbooks := aupdate st.orderbooks symbol emptyOrderBook
        subscriptions := aupdate st.subscriptions messageHash sub
        scheduledFetches := st.scheduledFetches ++ [messageHash] }

/-- `ripio.handle_message`: spawn an acknowledgment when the frame carries
a messageId, then dispatch the frame to the method stored in the first
registered subscription of `client.subscriptions`; with no subscription or
no method, the frame is returned unresolved. The result is the list of
spawned acks and the dispatch decision (which handler was invoked, with
which subscription record). -/
def handle_message (m : Frame) (subs : List (String × Subscription)) :
    List String × Option (Handler × Subscription) :=
  let acks := match m.messageId with
    | none => []
    | some mid => [mid]
  let keys := subs.map Prod.fst
  let dispatch := match keys.head? with
    | none => none
    | some firstKey =>
      match alookup subs firstKey with
      | none => none
      | some s => s.method.map (fun h => (h, s))
  (acks, dispatch)

end ripio

namespace bitmex

/-- The request echoed inside a bitmex error frame:
op together with the list of channel arguments. -/
structure Request where
  op : String
  args : List String
deriving DecidableEq, Repr

/-- One row of a bitmex order-book table message. -/
structure Row where
  symbol : Option String
  id : Option String
  side : Option String
  size : Option Int
  price : Option Int
deriving DecidableEq, Repr

/-- A decoded inbound bitmex frame: an error text, an echoed request, the
table / action tags, the data rows and the partial-message filter symbol. -/
structure Frame where
  error : Option String
  request : Option Request
  table : Option String
  action : Option String
  data : List Row
  filter : Option String
deriving DecidableEq, Repr

/-- An id-keyed order-book side level: level id, price (may be absent on an
update row) and size. -/
structure BookLevel where
  id : Option String
  price : Option Int
  size : Int
deriving DecidableEq, Repr

/-- A bitmex indexed order book: bid and ask sides plus the depth limit the
book was created with. -/
structure Book where
  bids : List BookLevel
  asks : List BookLevel
  depth : Option Nat
deriving DecidableEq, Repr

/-- The exchange state touched by the bitmex order-book path: the
marketId-to-symbol map `markets_by_id` and the per-symbol orderbooks. -/
structure State where
  markets_by_id : List (String × String)
  orderbooks : List (String × Book)
deriving DecidableEq, Repr

/-- Substring occurrence over character lists. -/
def listContainsSub (pat s : List Char) : Bool :=
  match s with
  | [] => pat.isEmpty
  | _ :: tail => pat.isPrefixOf s || listContainsSub pat tail

/-- Substring occurrence over strings: does s contain pat. -/
def strContainsSub (s pat : String) : Bool :=
  listContainsSub pat.data s.data

/-- The broad-match keys of the ws exceptions table in `describe`. -/
def broadKeys : List String := ["Rate limit exceeded"]

/-- Modelled from the spec: the base `find_broadly_matched_key(broad,
string)` helper is not in src/ — it returns the first key of the broad
exception map that occurs as a substring of the error text. -/
def find_broadly_matched_key (broad : List String) (error : String) :
    Option String :=
  broad.find? (fun k => strContainsSub error k)

/-- `bitmex.handle_error_message`: when the frame carries an error value
and the echoed request names at least one argument, reject the waiter
registered under the first argument — with `RateLimitExceeded` when the
error text broadly matches, otherwise `ExchangeError` — and return False;
otherwise return True. The args extraction is modelled from the spec (the
base safe-extraction helper is not in src/): the request's args field is
read as the list of routing keys named by the request. -/
def handle_error_message (m : Frame) : Option WaiterEvent × Bool :=
  match m.error with
  | none => (none, true)
  | some error =>
    let args := match m.request with
      | none => []
      | some r => r.args
    match args with
    | [] => (none, true)
    | messageHash :: _ =>
      let exc := match find_broadly_matched_key broadKeys error with
        | none => PyErr.exchangeError error
        | some _ => PyErr.rateLimitExceeded error
      (some (WaiterEvent.rejected messageHash exc), false)

/-- Truthiness of an optional size, as tested by the base book-side store:
absent or zero means delete. -/
def sizeFalsy (size : Option Int) : Bool :=
  match size with
  | none => true
  | some s => s == 0

/-- Modelled from the spec: the base `IndexedOrderBookSide.store(price,
size, id)` — upsert keyed by the level id, an absent or zero size removes
the level. -/
def idx_store (side : List BookLevel) (price : Option Int)
    (size : Option Int) (id : Option String) : List BookLevel :=
  if sizeFalsy size then side.filter (fun l => !(l.id == id))
  else
    let sz := size.getD 0
    if side.any (fun l => l.id == id) then
      side.map (fun l => if l.id == id then ⟨id, price, sz⟩ else l)
    else side ++ [⟨id, price, sz⟩]

/-- Modelled from the spec: the base `restore` — the same semantics as
`store`, but tolerant of an update that carries no price, falling back to
the price already stored under the id. -/
def idx_restore (side : List BookLevel) (price : Option Int)
    (size : Option Int) (id : Option String) : List BookLevel :=
  if sizeFalsy size then side.filter (fun l => !(l.id == id))
  else
    let sz := size.getD 0
    match side.find? (fun l => l.id == id) with
    | some old =>
      let p := match price with
        | some pr => some pr
        | none => old.price
      side.map (fun l => if l.id == id then ⟨id, p, sz⟩ else l)
    | none => side ++ [⟨id, price, sz⟩]

/-- Application of one snapshot row inside the partial branch of
`handle_order_book`: a Buy row goes to the bids, anything else to the
asks, via `store`. -/
def partialRowStore (ob : Book) (row : Row) : Book :=
  if row.side == some "Buy" then
    { ob with bids := idx_store ob.bids row.price row.size row.id }
  else
    { ob with asks := idx_store ob.asks row.price row.size row.id }

/-- A fresh `indexed_order_book` with the given depth limit. -/
def emptyBook (depth : Option Nat) : Book :=
  { bids := [], asks := [], depth := depth }

/-- The first loop of the update branch of `bitmex.handle_order_book`: for
every row whose market id is known, record the market id (insertion order,
dict-of-counts keys) and store/restore the level into the book of the
corresponding symbol; a missing book raises a `KeyError`, keeping the
mutations applied so far. The update branch reads size with a default of
0. -/
def update_loop (rows : List Row) (insert : Bool)
    (markets : List (String × String)) (obs : List (String × Book))
    (acc : List String) :
    List (String × Book) × List String × Option PyErr :=
  match rows with
  | [] => (obs, acc, none)
  | row :: rest =>
    match row.symbol with
    | none => update_loop rest insert markets obs acc
    | some marketId =>
      match alookup markets marketId with
      | none => update_loop rest insert markets obs acc
      | some symbol =>
        let acc' := if acc.contains marketId then acc else acc ++ [marketId]
        match alookup obs symbol with
        | none => (obs, acc', some PyErr.keyError)
        | some ob =>
          let size : Option Int := some (row.size.getD 0)
          let ob' :=
            if row.side == some "Buy" then
              { ob with bids :=
                  if insert then idx_store ob.bids row.price size row.id
                  else idx_restore ob.bids row.price size row.id }
            else
              { ob with asks :=
                  if insert then idx_store ob.asks row.price size row.id
                  else idx_restore ob.asks row.price size row.id }
          update_loop rest insert markets (aupdate obs symbol ob') acc'

/-- The second loop of the update branch: resolve the waiter under
`<table>:<marketId>` for every market id touched, in insertion order.
Concatenating a `None` table with a string raises a `TypeError`; the
market and book lookups re-run as in the source. Events emitted before a
raise survive it. -/
def resolve_loop (table : Option String) (mids : List String)
    (markets : List (String × String)) (obs : List (String × Book)) :
    List WaiterEvent × Option PyErr :=
  match mids with
  | [] => ([], none)
  | mid :: rest =>
    match table with
    | none => ([], some (PyErr.typeError "cannot concat NoneType and str"))
    | some t =>
      match alookup markets mid with
      | none => ([], some PyErr.keyError)
      | some symbol =>
        match alookup obs symbol with
        | none => ([], some PyErr.keyError)
        | some _ =>
          (WaiterEvent.resolved (t ++ ":" ++ mid)
             :: (resolve_loop table rest markets obs).1,
           (resolve_loop table rest markets obs).2)

/-- The table-keyed book re-initialization at the top of the partial
branch of `bitmex.handle_order_book`: orderBookL2 installs an unbounded
indexed book, orderBookL2_25 a depth-25 one, orderBook10 a depth-10 one;
any other table leaves the dict as it is. -/
def partial_reinit (table : Option String)
    (orderbooks : List (String × Book)) (symbol : String) :
    List (String × Book) :=
  if table == some "orderBookL2" then
    aupdate orderbooks symbol (emptyBook none)
  else if table == some "orderBookL2_25" then
    aupdate orderbooks symbol (emptyBook (some 25))
  else if table == some "orderBook10" then
    aupdate orderbooks symbol (emptyBook (some 10))
  else orderbooks

/-- `bitmex.handle_order_book`: the partial branch re-initializes the book
for the filtered market, stores every row and resolves the waiter under
`<table>:<marketId>`; the other actions run the incremental update loops. -/
def handle_order_book (m : Frame) (st : State) :
    State × List WaiterEvent × Option PyErr :=
  if m.action == some "partial" then
    match m.filter with
    | none => (st, [], none)
    | some marketId =>
      match alookup st.markets_by_id marketId with
      | none => (st, [], none)
      | some symbol =>
        match alookup (partial_reinit m.table st.orderbooks symbol) symbol with
        | none =>
          ({ st with
              orderbooks := partial_reinit m.table st.orderbooks symbol },
           [], some PyErr.keyError)
        | some ob =>
          match m.table with
          | none =>
            ({ st with
                orderbooks :=
                  aupdate (partial_reinit m.table st.orderbooks symbol)
                    symbol (m.data.foldl partialRowStore ob) },
             [], some (PyErr.typeError "cannot concat NoneType and str"))
          | some t =>
            ({ st with
                orderbooks :=
                  aupdate (partial_reinit m.table st.orderbooks symbol)
                    symbol (m.data.foldl partialRowStore ob) },
             [WaiterEvent.resolved (t ++ ":" ++ marketId)], none)
  else
    match update_loop m.data (m.action == some "insert") st.markets_by_id
        st.orderbooks [] with
    | (obs1, _, some e) => ({ st with orderbooks := obs1 }, [], some e)
    | (obs1, mids, none) =>
      ({ st with orderbooks := obs1 },
       (resolve_loop m.table mids st.markets_by_id obs1).1,
       (resolve_loop m.table mids st.markets_by_id obs1).2)

/-- The tables routed to `handle_order_book` by the methods dict of
`bitmex.handle_message`. -/
def order_book_tables : List String :=
  ["orderBookL2", "orderBookL2_25", "orderBook10"]

/-- `bitmex.handle_message`: run `handle_error_message` first — when it
returns False the frame is not dispatched further; otherwise look the
frame's table up in the methods dict and dispatch to `handle_order_book`,
or return the (printed) message untouched when the table is unknown. -/
def handle_message (m : Frame) (st : State) :
    State × List WaiterEvent × Option PyErr :=
  match handle_error_message m with
  | (ev, false) =>
    (st, (match ev with | none => [] | some e => [e]), none)
  | (_, true) =>
    match m.table with
    | none => (st, [], none)
    | some t =>
      if t ∈ order_book_tables then handle_order_book m st
      else (st, [], none)

/-- The channel-name selection of `bitmex.watch_order_book`: limit None
maps to the watchOrderBookLevel option (default orderBookL2), 25 to
orderBookL2_25, 10 to orderBookL10; any other limit raises. -/
def order_book_channel (limit : Option Int) (watchOrderBookLevel : String) :
    Except PyErr String :=
  match limit with
  | none => .ok watchOrderBookLevel
  | some l =>
    if l = 25 then .ok "orderBookL2_25"
    else if l = 10 then .ok "orderBookL10"
    else .error (.exchangeError
      "watchOrderBook limit argument must be None, 25 or 10")

/-- The routing key awaited by `bitmex.watch_order_book`:
`<channel>:<marketId>`. -/
def watch_order_book_key (limit : Option Int) (watchOrderBookLevel : String)
    (marketId : String) : Except PyErr String :=
  (order_book_channel limit watchOrderBookLevel).map
    (fun name => name ++ ":" ++ marketId)

/-- Python semantics of the expression `NotImplemented(msg)`: the builtin
`NotImplemented` constant is not an exception class and is not callable, so
evaluating the call raises a `TypeError` before the raise statement can
act on its operand. -/
def notImplementedCall (msg : String) : PyErr :=
  let _ := msg
  PyErr.typeError "NotImplementedType object is not callable"

/-- `bitmex.watch_balance`: after loading markets it executes
`raise NotImplemented(...)`, so every call surfaces the exception produced
by evaluating that expression. -/
def watch_balance (params : List (String × String)) : Except PyErr Unit :=
  let _ := params
  .error (notImplementedCall "bitmex watchBalance() not implemented yet")

end bitmex

/-- Claim C1: for every order book whose nonce is set, a delta message whose
reported updated_id is less than or equal to the current nonce leaves the
book completely unchanged (bids, asks, nonce, timestamp identical) and
raises nothing; across every delta application the nonce is non-decreasing;
in particular a book whose nonce reached 99740 ignores a later delta with
updated_id 99739 and its nonce stays 99740. -/
theorem ripio_stale_delta_noop_nonce_monotone :
    (∀ (m : ripio.Frame) (ob : ripio.OrderBook) (data : ripio.Payload)
       (n u : Int), ob.nonce = some n → m.payload = some data →
       data.updated_id = some u → u ≤ n →
       ripio.handle_order_book_message m ob = (ob, none))
    ∧ (∀ (m : ripio.Frame) (ob : ripio.OrderBook) (n : Int),
        ob.nonce = some n →
        ∃ n' : Int,
          (ripio.handle_order_book_message m ob).1.nonce = some n' ∧ n ≤ n')
    ∧ (∀ (m : ripio.Frame) (ob : ripio.OrderBook) (data : ripio.Payload),
        ob.nonce = some 99740 → m.payload = some data →
        data.updated_id = some 99739 →
        ripio.handle_order_book_message m ob = (ob, none) ∧
        (ripio.handle_order_book_message m ob).1.nonce = some 99740) := by
  have h1 : ∀ (m : ripio.Frame) (ob : ripio.OrderBook) (data : ripio.Payload)
      (n u : Int), ob.nonce = some n → m.payload = some data →
      data.updated_id = some u → u ≤ n →
      ripio.handle_order_book_message m ob = (ob, none) := by
    intro m ob data n u hn hp hu hle
    have hdec : decide (n < u) = false := decide_eq_false (not_lt.mpr hle)
    simp [ripio.handle_order_book_message, hp, hu, hn, pyGt, hdec]
  refine ⟨h1, ?_, ?_⟩
  · intro m ob n hn
    cases hp : m.payload with
    | none =>
      exact ⟨n, by simp [ripio.handle_order_book_message, hp, hn], le_refl n⟩
    | some data =>
      cases hu : data.updated_id with
      | none =>
        refine ⟨n, ?_, le_refl n⟩
        simp [ripio.handle_order_book_message, hp, hu, hn, pyGt]
      | some u =>
        by_cases hlt : n < u
        · refine ⟨n, ?_, le_refl n⟩
          simp [ripio.handle_order_book_message, hp, hu, hn, pyGt, hlt,
            ripio.call_handle_deltas, ripio.handle_deltas_paramCount]
        · refine ⟨n, ?_, le_refl n⟩
          simp [ripio.handle_order_book_message, hp, hu, hn, pyGt, hlt]
  · intro m ob data hn hp hu
    have heq := h1 m ob data 99740 99739 hn hp hu (by norm_num)
    refine ⟨heq, ?_⟩
    rw [heq]
    exact hn

/-- Concrete instance of C1: a book at nonce 99740 receiving a delta with
updated_id 99739 is returned byte-for-byte unchanged. -/
theorem ripio_stale_delta_noop_witness :
    ripio.handle_order_book_message
      ⟨none, some ⟨[⟨1, 0, 100⟩], [], some 99739⟩, some 5⟩
      ⟨[(100, 1)], [(101, 2)], some 99740, some 4, []⟩
    = (⟨[(100, 1)], [(101, 2)], some 99740, some 4, []⟩, none) :=
  ripio_stale_delta_noop_nonce_monotone.1 _ _ _ 99740 99739 rfl rfl rfl
    (by norm_num)

/-- Claim C9: handle_deltas is defined with two parameters besides self,
while every application of a strictly newer delta invokes it with three
arguments (bookside, deltas, nonce); the argument binding raises a
TypeError before any price level, the nonce or the timestamp is touched,
so the book comes back identical and no delta is ever applied through this
path. -/
theorem ripio_newer_delta_raises_type_error :
    ripio.handle_deltas_paramCount = 2 ∧
    ∀ (m : ripio.Frame) (ob : ripio.OrderBook) (data : ripio.Payload)
      (n u : Int), ob.nonce = some n → m.payload = some data →
      data.updated_id = some u → n < u →
      ripio.handle_order_book_message m ob =
        (ob, some (PyErr.typeError
          "handle_deltas wrong number of positional args")) := by
  refine ⟨rfl, ?_⟩
  intro m ob data n u hn hp hu hlt
  simp [ripio.handle_order_book_message, hp, hu, hn, pyGt, hlt,
    ripio.call_handle_deltas, ripio.handle_deltas_paramCount]

/-- Concrete instance of C9: a delta with updated_id 99741 against nonce
99740 raises the arity TypeError and leaves the book unchanged. -/
theorem ripio_newer_delta_raises_witness :
    ripio.handle_order_book_message
      ⟨none, some ⟨[⟨1, 0, 100⟩], [], some 99741⟩, some 9⟩
      ⟨[], [], some 99740, none, []⟩
    = (⟨[], [], some 99740, none, []⟩,
       some (PyErr.typeError
         "handle_deltas wrong number of positional args")) :=
  ripio_newer_delta_raises_type_error.2 _ _ _ 99740 99741 rfl rfl rfl
    (by norm_num)

/-- Claim C5: when the snapshot fetch itself fails, the waiter for the
symbol's routing key is rejected with exactly that failure, while the
subscriptions, the order-book entries and the connection all survive
untouched, keeping the state machine retryable. -/
theorem ripio_snapshot_fetch_failure_rejects :
    ∀ (e : PyErr) (sub : ripio.Subscription) (st : ripio.State),
      ripio.fetch_order_book_snapshot (.error e) sub st =
        (st, [WaiterEvent.rejected sub.messageHash e]) ∧
      (ripio.fetch_order_book_snapshot (.error e) sub st).1.subscriptions
        = st.subscriptions ∧
      (ripio.fetch_order_book_snapshot (.error e) sub st).1.orderbooks
        = st.orderbooks ∧
      (ripio.fetch_order_book_snapshot (.error e) sub st).1.connected
        = st.connected := by
  intro e sub st
  refine ⟨rfl, rfl, rfl, rfl⟩

/-- Claim C3: a delta frame arriving for a symbol whose book exists but
whose nonce is unset is appended raw to the book's cache; bids, asks,
nonce and timestamp are untouched and no waiter event is emitted; a waiter
is resolved only when the nonce is set. -/
theorem ripio_buffering_appends_frame :
    (∀ (m : ripio.Frame) (sub : ripio.Subscription)
       (obs : List (String × ripio.OrderBook)) (ob : ripio.OrderBook),
      alookup obs sub.symbol = some ob → ob.nonce = none →
      ripio.handle_order_book m sub obs =
        (aupdate obs sub.symbol { ob with cache := ob.cache ++ [m] },
         [], none))
    ∧ (∀ (m : ripio.Frame) (sub : ripio.Subscription)
        (obs : List (String × ripio.OrderBook)) (ob : ripio.OrderBook),
        alookup obs sub.symbol = some ob → ob.nonce = none →
        ∃ ob' : ripio.OrderBook,
          alookup (ripio.handle_order_book m sub obs).1 sub.symbol = some ob'
          ∧ ob'.bids = ob.bids ∧ ob'.asks = ob.asks ∧ ob'.nonce = none
          ∧ ob'.timestamp = ob.timestamp ∧ ob'.cache = ob.cache ++ [m])
    ∧ (∀ (m : ripio.Frame) (sub : ripio.Subscription)
        (obs : List (String × ripio.OrderBook)) (ob : ripio.OrderBook)
        (ev : WaiterEvent),
        alookup obs sub.symbol = some ob →
        ev ∈ (ripio.handle_order_book m sub obs).2.1 →
        ob.nonce ≠ none) := by
  have h1 : ∀ (m : ripio.Frame) (sub : ripio.Subscription)
      (obs : List (String × ripio.OrderBook)) (ob : ripio.OrderBook),
      alookup obs sub.symbol = some ob → ob.nonce = none →
      ripio.handle_order_book m sub obs =
        (aupdate obs sub.symbol { ob with cache := ob.cache ++ [m] },
         [], none) := by
    intro m sub obs ob hob hn
    simp [ripio.handle_order_book, hob, hn]
  refine ⟨h1, ?_, ?_⟩
  · intro m sub obs ob hob hn
    refine ⟨{ ob with cache := ob.cache ++ [m] }, ?_, rfl, rfl, hn, rfl, rfl⟩
    rw [h1 m sub obs ob hob hn]
    exact alookup_aupdate_self obs sub.symbol _
  · intro m sub obs ob ev hob hev
    cases hn : ob.nonce with
    | none =>
      rw [h1 m sub obs ob hob hn] at hev
      simp at hev
    | some k => simp

/-- Concrete instance of C3: with an unset nonce the frame lands in the
cache and nothing else moves. -/
theorem ripio_buffering_appends_witness :
    ripio.handle_order_book
      ⟨some "mid1", some ⟨[], [], some 5⟩, some 7⟩
      ⟨"orderbook", "BTC/USDC", "orderbook_btc_usdc",
        some ripio.Handler.orderBook⟩
      [("BTC/USDC", ⟨[], [], none, none, []⟩)]
    = (aupdate [("BTC/USDC", (⟨[], [], none, none, []⟩ : ripio.OrderBook))]
        "BTC/USDC"
        ⟨[], [], none, none, [⟨some "mid1", some ⟨[], [], some 5⟩, some 7⟩]⟩,
       [], none) := by
  have h := ripio_buffering_appends_frame.1
    ⟨some "mid1", some ⟨[], [], some 5⟩, some 7⟩
    ⟨"orderbook", "BTC/USDC", "orderbook_btc_usdc",
      some ripio.Handler.orderBook⟩
    [("BTC/USDC", ⟨[], [], none, none, []⟩)]
    ⟨[], [], none, none, []⟩ (by decide) rfl
  exact h

/-- Claim C2 (code bug): when the snapshot (nonce 100) resolves for a book
holding one buffered delta frame with updated_id 101, the replay of the
buffer through handle_order_book_message raises the handle_deltas arity
TypeError, the exception is caught and the waiter for the routing key is
rejected instead of resolved, and the buffered delta is never applied: the
installed book is exactly the raw snapshot. -/
theorem ripio_snapshot_replay_rejected_by_arity_bug :
    ripio.fetch_order_book_snapshot
      (.ok ⟨[(100, 1)], [(101, 2)], 100, some 50⟩)
      ⟨"orderbook", "BTC/USDC", "orderbook_btc_usdc",
        some ripio.Handler.orderBook⟩
      ⟨[("orderbook_btc_usdc",
          ⟨"orderbook", "BTC/USDC", "orderbook_btc_usdc",
            some ripio.Handler.orderBook⟩)],
        [("BTC/USDC",
          ⟨[], [], none, none,
            [⟨none, some ⟨[⟨1, 0, 100⟩], [], some 101⟩, some 60⟩]⟩)],
        ["orderbook_btc_usdc"], true⟩
    = (⟨[("orderbook_btc_usdc",
          ⟨"orderbook", "BTC/USDC", "orderbook_btc_usdc",
            some ripio.Handler.orderBook⟩)],
        [("BTC/USDC", ⟨[(100, 1)], [(101, 2)], some 100, some 50, []⟩)],
        ["orderbook_btc_usdc"], true⟩,
       [WaiterEvent.rejected "orderbook_btc_usdc"
         (PyErr.typeError
           "handle_deltas wrong number of positional args")]) := by
  decide

/-- Helper for C4: across any sequence of watch_order_book calls the number
of snapshot fetches scheduled for a routing key grows by at most one, and
only while the key is not yet subscribed. -/
theorem ripio_fetch_count_le (calls : List (String × String)) :
    ∀ (st : ripio.State) (k : String),
    ((calls.foldl (fun s c => ripio.watch_order_book_setup c.1 c.2 s)
        st).scheduledFetches.count k)
      ≤ st.scheduledFetches.count k +
        (if (alookup st.subscriptions k).isSome then 0 else 1) := by
  induction calls with
  | nil =>
    intro st k
    simp only [List.foldl_nil]
    exact Nat.le_add_right _ _
  | cons c rest ih =>
    intro st k
    simp only [List.foldl_cons]
    by_cases hp :
        (alookup st.subscriptions ("orderbook_" ++ strLower c.2)).isSome
    · rw [show ripio.watch_order_book_setup c.1 c.2 st = st by
        simp [ripio.watch_order_book_setup, hp]]
      exact ih st k
    · have hsetup : ripio.watch_order_book_setup c.1 c.2 st =
          { st with
              orderbooks := aupdate st.orderbooks c.1 ripio.emptyOrderBook
              subscriptions := aupdate st.subscriptions
                ("orderbook_" ++ strLower c.2)
                { name := "orderbook", symbol := c.1,
                  messageHash := "orderbook_" ++ strLower c.2,
                  method := some ripio.Handler.orderBook }
              scheduledFetches := st.scheduledFetches ++
                ["orderbook_" ++ strLower c.2] } := by
        simp [ripio.watch_order_book_setup, hp]
      have h := ih (ripio.watch_order_book_setup c.1 c.2 st) k
      rw [hsetup] at h
      rw [hsetup]
      simp only [List.count_append] at h
      by_cases hk : ("orderbook_" ++ strLower c.2) = k
      · rw [hk] at h ⊢
        have hnone : alookup st.subscriptions k = none := by
          rw [← hk]
          exact Option.not_isSome_iff_eq_none.mp hp
        rw [alookup_aupdate_self] at h
        rw [hnone]
        have hcount : List.count k [k] = 1 := by simp
        rw [hcount] at h
        simp only [Option.isSome_some, Option.isSome_none, if_true,
          Bool.false_eq_true, if_false] at h ⊢
        omega
      · have hlook : alookup (aupdate st.subscriptions
            ("orderbook_" ++ strLower c.2)
            { name := "orderbook", symbol := c.1,
              messageHash := "orderbook_" ++ strLower c.2,
              method := some ripio.Handler.orderBook }) k
            = alookup st.subscriptions k :=
          alookup_aupdate_ne _ _ _ _ hk
        rw [hlook] at h
        have hcount : List.count k ["orderbook_" ++ strLower c.2] = 0 := by
          simp [List.count_cons, List.count_nil, hk]
        rw [hcount] at h
        omega

/-- Claim C4: a watch_order_book call whose routing key is already present
in the subscriptions attaches to the existing state — the whole client
state is unchanged, so no fresh order book and no second snapshot fetch —
and over any sequence of calls starting with the key unsubscribed at most
one snapshot fetch is ever scheduled for it. -/
theorem ripio_at_most_one_snapshot_fetch :
    (∀ (symbol marketId : String) (st : ripio.State),
      (alookup st.subscriptions
        ("orderbook_" ++ strLower marketId)).isSome →
      ripio.watch_order_book_setup symbol marketId st = st)
    ∧ (∀ (calls : List (String × String))
        (subs : List (String × ripio.Subscription))
        (obs : List (String × ripio.OrderBook)) (conn : Bool) (k : String),
        alookup subs k = none →
        ((calls.foldl (fun s c => ripio.watch_order_book_setup c.1 c.2 s)
            ⟨subs, obs, [], conn⟩).scheduledFetches.count k) ≤ 1) := by
  constructor
  · intro symbol marketId st hp
    simp [ripio.watch_order_book_setup, hp]
  · intro calls subs obs conn k hnone
    have h := ripio_fetch_count_le calls ⟨subs, obs, [], conn⟩ k
    simp only [hnone] at h
    simpa using h

/-- Concrete instance of C4: a second call with an already-registered
routing key changes nothing, and two raw calls schedule one fetch. -/
theorem ripio_at_most_one_snapshot_fetch_witness :
    ripio.watch_order_book_setup "BTC/USDC" "BTC_USDC"
      ⟨[("orderbook_btc_usdc",
          ⟨"orderbook", "BTC/USDC", "orderbook_btc_usdc",
            some ripio.Handler.orderBook⟩)],
        [("BTC/USDC", ripio.emptyOrderBook)], ["orderbook_btc_usdc"], true⟩
      = ⟨[("orderbook_btc_usdc",
          ⟨"orderbook", "BTC/USDC", "orderbook_btc_usdc",
            some ripio.Handler.orderBook⟩)],
        [("BTC/USDC", ripio.emptyOrderBook)], ["orderbook_btc_usdc"], true⟩
    ∧ ((([("BTC/USDC", "BTC_USDC"), ("BTC/USDC", "BTC_USDC")] :
          List (String × String)).foldl
          (fun s c => ripio.watch_order_book_setup c.1 c.2 s)
          ⟨[], [], [], true⟩).scheduledFetches.count "orderbook_btc_usdc")
        ≤ 1 := by
  constructor
  · exact ripio_at_most_one_snapshot_fetch.1 "BTC/USDC" "BTC_USDC" _
      (by decide)
  · exact ripio_at_most_one_snapshot_fetch.2
      [("BTC/USDC", "BTC_USDC"), ("BTC/USDC", "BTC_USDC")] [] [] true
      "orderbook_btc_usdc" rfl

/-- Claim C7: ripio handle_message dispatches every frame to the method of
the first registered subscription, independently of the frame's content;
with no subscription, or a subscription without a method, the frame comes
back unresolved and nothing is raised. -/
theorem ripio_routes_to_first_subscription :
    (∀ (m : ripio.Frame) (k : String) (s : ripio.Subscription)
       (rest : List (String × ripio.Subscription)),
      (ripio.handle_message m ((k, s) :: rest)).2 =
        s.method.map (fun h => (h, s)))
    ∧ (∀ m : ripio.Frame, (ripio.handle_message m []).2 = none)
    ∧ (∀ (m m' : ripio.Frame)
        (subs : List (String × ripio.Subscription)),
        (ripio.handle_message m subs).2 =
          (ripio.handle_message m' subs).2) := by
  refine ⟨?_, ?_, ?_⟩
  · intro m k s rest
    simp [ripio.handle_message, alookup]
  · intro m
    simp [ripio.handle_message]
  · intro m m' subs
    rfl

/-- Claim C6: an inbound bitmex frame carrying an error value together with
an echoed request with non-empty args rejects exactly the waiter registered
under the first arg — RateLimitExceeded when the error text broadly matches
the rate-limit key, ExchangeError otherwise — and handle_message stops
there, dispatching nothing; a frame without such an error rejects nothing
and handle_error_message returns True. -/
theorem bitmex_error_frame_rejects_implicated_waiter :
    (∀ (m : bitmex.Frame) (err : String) (r : bitmex.Request)
       (a : String) (rest : List String),
      m.error = some err → m.request = some r → r.args = a :: rest →
      bitmex.handle_error_message m =
        (some (WaiterEvent.rejected a
          (if bitmex.strContainsSub err "Rate limit exceeded"
           then PyErr.rateLimitExceeded err else PyErr.exchangeError err)),
         false))
    ∧ (∀ (m : bitmex.Frame) (st : bitmex.State) (err : String)
        (r : bitmex.Request) (a : String) (rest : List String),
        m.error = some err → m.request = some r → r.args = a :: rest →
        bitmex.handle_message m st =
          (st, [WaiterEvent.rejected a
            (if bitmex.strContainsSub err "Rate limit exceeded"
             then PyErr.rateLimitExceeded err else PyErr.exchangeError err)],
           none))
    ∧ (∀ m : bitmex.Frame, m.error = none →
        bitmex.handle_error_message m = (none, true))
    ∧ (∀ (m : bitmex.Frame) (err : String), m.error = some err →
        (m.request = none ∨ ∃ r, m.request = some r ∧ r.args = []) →
        bitmex.handle_error_message m = (none, true)) := by
  have h1 : ∀ (m : bitmex.Frame) (err : String) (r : bitmex.Request)
      (a : String) (rest : List String),
      m.error = some err → m.request = some r → r.args = a :: rest →
      bitmex.handle_error_message m =
        (some (WaiterEvent.rejected a
          (if bitmex.strContainsSub err "Rate limit exceeded"
           then PyErr.rateLimitExceeded err else PyErr.exchangeError err)),
         false) := by
    intro m err r a rest he hr ha
    by_cases hb : bitmex.strContainsSub err "Rate limit exceeded"
    · simp [bitmex.handle_error_message, he, hr, ha,
        bitmex.find_broadly_matched_key, bitmex.broadKeys, hb]
    · simp [bitmex.handle_error_message, he, hr, ha,
        bitmex.find_broadly_matched_key, bitmex.broadKeys, hb]
  refine ⟨h1, ?_, ?_, ?_⟩
  · intro m st err r a rest he hr ha
    simp [bitmex.handle_message, h1 m err r a rest he hr ha]
  · intro m he
    simp [bitmex.handle_error_message, he]
  · intro m err he hr
    rcases hr with hr | ⟨r, hr, ha⟩
    · simp [bitmex.handle_error_message, he, hr]
    · simp [bitmex.handle_error_message, he, hr, ha]

/-- Concrete instance of C6: a rate-limit error frame echoing a subscribe
request rejects the waiter under the request's first arg with
RateLimitExceeded and returns False. -/
theorem bitmex_error_frame_rejects_witness :
    bitmex.handle_error_message
      ⟨some "Rate limit exceeded, retry in 1 seconds.",
        some ⟨"subscribe", ["orderBookL2:XBTUSD"]⟩, none, none, [], none⟩
      = (some (WaiterEvent.rejected "orderBookL2:XBTUSD"
          (if bitmex.strContainsSub "Rate limit exceeded, retry in 1 seconds."
              "Rate limit exceeded"
           then PyErr.rateLimitExceeded
             "Rate limit exceeded, retry in 1 seconds."
           else PyErr.exchangeError
             "Rate limit exceeded, retry in 1 seconds.")),
         false) :=
  bitmex_error_frame_rejects_implicated_waiter.1 _
    "Rate limit exceeded, retry in 1 seconds."
    ⟨"subscribe", ["orderBookL2:XBTUSD"]⟩ "orderBookL2:XBTUSD" [] rfl rfl rfl

/-- Claim C8 (code bug): every watch_balance call fails immediately at
subscribe time — it never resolves — but the surfaced exception is the
TypeError produced by calling the non-callable NotImplemented builtin,
never an actual NotImplemented error value. -/
theorem bitmex_watch_balance_raises_immediately :
    ∀ params : List (String × String),
      bitmex.watch_balance params =
        .error (PyErr.typeError
          "NotImplementedType object is not callable") ∧
      (∀ u : Unit, bitmex.watch_balance params ≠ .ok u) ∧
      (∀ s : String,
        bitmex.watch_balance params ≠ .error (PyErr.notImplemented s)) := by
  intro params
  refine ⟨rfl, ?_, ?_⟩
  · intro u
    simp [bitmex.watch_balance, bitmex.notImplementedCall]
  · intro s
    simp [bitmex.watch_balance, bitmex.notImplementedCall]

theorem string_data_append (s t : String) :
    (s ++ t).data = s.data ++ t.data := rfl

theorem takeWhile_append_colon (l r : List Char)
    (h : l.all (fun c => c != ':') = true) :
    (l ++ ':' :: r).takeWhile (fun c => c != ':') = l := by
  induction l with
  | nil => simp [List.takeWhile_cons]
  | cons c cs ih =>
    simp only [List.all_cons, Bool.and_eq_true] at h
    simp [List.takeWhile_cons, h.1, ih h.2]

/-- Two channel-prefixed routing keys with different colon-free channel
names never collide, whatever the market ids. -/
theorem channel_key_ne (t1 t2 : String)
    (h1 : t1.data.all (fun c => c != ':') = true)
    (h2 : t2.data.all (fun c => c != ':') = true)
    (hne : t1.data ≠ t2.data) (mid1 mid2 : String) :
    t1 ++ ":" ++ mid1 ≠ t2 ++ ":" ++ mid2 := by
  intro he
  apply hne
  have hd := congrArg String.data he
  rw [string_data_append, string_data_append, string_data_append,
    string_data_append] at hd
  have hcolon : (":" : String).data = [':'] := rfl
  rw [hcolon] at hd
  simp only [List.append_assoc, List.singleton_append] at hd
  have h' := congrArg (List.takeWhile (fun c => c != ':')) hd
  rwa [takeWhile_append_colon _ _ h1, takeWhile_append_colon _ _ h2] at h'

/-- Helper for C10: every event emitted by the bitmex resolve loop is a
resolution under a key of the form table-colon-marketId. -/
theorem bitmex_resolve_loop_events (table : Option String)
    (markets : List (String × String)) (obs : List (String × bitmex.Book)) :
    ∀ (mids : List String) (ev : WaiterEvent),
      ev ∈ (bitmex.resolve_loop table mids markets obs).1 →
      ∃ t mid, table = some t ∧ mid ∈ mids ∧
        ev = WaiterEvent.resolved (t ++ ":" ++ mid) := by
  intro mids
  induction mids with
  | nil =>
    intro ev hev
    simp [bitmex.resolve_loop] at hev
  | cons mid rest ih =>
    intro ev hev
    cases htab : table with
    | none =>
      rw [htab] at hev
      simp [bitmex.resolve_loop] at hev
    | some t =>
      rw [htab] at hev
      cases hm : alookup markets mid with
      | none => simp [bitmex.resolve_loop, hm] at hev
      | some symbol =>
        cases hb : alookup obs symbol with
        | none => simp [bitmex.resolve_loop, hm, hb] at hev
        | some ob =>
          simp only [bitmex.resolve_loop, hm, hb, List.mem_cons] at hev
          rcases hev with rfl | hev
          · exact ⟨t, mid, rfl, by simp, rfl⟩
          · rw [← htab] at hev
            rcases ih ev hev with ⟨t', mid', ht', hmem, rfl⟩
            rw [htab] at ht'
            exact ⟨t', mid', ht', List.mem_cons_of_mem _ hmem, rfl⟩

/-- Helper for C10: every event emitted by bitmex handle_order_book
resolves a key of the form table-colon-marketId, for the frame's table. -/
theorem bitmex_hob_resolved_key (m : bitmex.Frame) (st : bitmex.State)
    (ev : WaiterEvent)
    (hev : ev ∈ (bitmex.handle_order_book m st).2.1) :
    ∃ t mid, m.table = some t ∧
      ev = WaiterEvent.resolved (t ++ ":" ++ mid) := by
  unfold bitmex.handle_order_book at hev
  by_cases hact : (m.action == some "partial") = true
  · rw [if_pos hact] at hev
    cases hfil : m.filter with
    | none =>
      simp [hfil] at hev
    | some marketId =>
      simp only [hfil] at hev
      cases hmk : alookup st.markets_by_id marketId with
      | none =>
        simp [hmk] at hev
      | some symbol =>
        simp only [hmk] at hev
        cases halk : alookup
            (bitmex.partial_reinit m.table st.orderbooks symbol) symbol with
        | none =>
          simp [halk] at hev
        | some ob =>
          simp only [halk] at hev
          cases htab : m.table with
          | none =>
            simp [htab] at hev
          | some t =>
            simp only [htab, List.mem_singleton] at hev
            exact ⟨t, marketId, rfl, hev⟩
  · rw [if_neg hact] at hev
    split at hev
    · simp at hev
    · rcases bitmex_resolve_loop_events m.table st.markets_by_id _ _
        ev hev with ⟨t, mid, htab, _, rfl⟩
      exact ⟨t, mid, htab, rfl⟩

/-- Helper for C10 and C6: the bitmex error handler only ever rejects; it
never resolves a waiter. -/
theorem bitmex_hem_never_resolves (m : bitmex.Frame) :
    (bitmex.handle_error_message m).1 = none ∨
    ∃ a e, (bitmex.handle_error_message m).1 =
      some (WaiterEvent.rejected a e) := by
  cases he : m.error with
  | none =>
    left
    simp [bitmex.handle_error_message, he]
  | some err =>
    cases hr : m.request with
    | none =>
      left
      simp [bitmex.handle_error_message, he, hr]
    | some r =>
      cases ha : r.args with
      | nil =>
        left
        simp [bitmex.handle_error_message, he, hr, ha]
      | cons a rest =>
        right
        by_cases hb : bitmex.strContainsSub err "Rate limit exceeded"
        · exact ⟨a, PyErr.rateLimitExceeded err, by
            simp [bitmex.handle_error_message, he, hr, ha,
              bitmex.find_broadly_matched_key, bitmex.broadKeys, hb]⟩
        · exact ⟨a, PyErr.exchangeError err, by
            simp [bitmex.handle_error_message, he, hr, ha,
              bitmex.find_broadly_matched_key, bitmex.broadKeys, hb]⟩

/-- Claim C10: watch_order_book with limit 10 awaits the routing key
orderBookL10-colon-marketId, while every key the order-book handler can
ever resolve through handle_message carries one of the dispatched tables
(orderBookL2, orderBookL2_25, orderBook10) as its channel, and none of
those keys can ever equal an orderBookL10 key; for limit None (with the
default watchOrderBookLevel) and limit 25 the awaited key coincides with a
key the handler resolves. -/
theorem bitmex_orderBookL10_key_never_resolved :
    (∀ mid : String,
      bitmex.watch_order_book_key (some 10) "orderBookL2" mid =
        .ok ("orderBookL10" ++ ":" ++ mid))
    ∧ (∀ (m : bitmex.Frame) (st : bitmex.State) (ev : WaiterEvent)
        (k : String),
        ev ∈ (bitmex.handle_message m st).2.1 →
        ev = WaiterEvent.resolved k →
        ∃ t mid, m.table = some t ∧ t ∈ bitmex.order_book_tables ∧
          k = t ++ ":" ++ mid)
    ∧ (∀ t, t ∈ bitmex.order_book_tables → ∀ mid mid' : String,
        "orderBookL10" ++ ":" ++ mid ≠ t ++ ":" ++ mid')
    ∧ (bitmex.watch_order_book_key none "orderBookL2" "XBTUSD" =
        .ok ("orderBookL2" ++ ":" ++ "XBTUSD")
      ∧ (bitmex.handle_message
           ⟨none, none, some "orderBookL2", some "partial", [],
             some "XBTUSD"⟩
           ⟨[("XBTUSD", "BTC/USD")], []⟩).2.1 =
         [WaiterEvent.resolved ("orderBookL2" ++ ":" ++ "XBTUSD")])
    ∧ (bitmex.watch_order_book_key (some 25) "orderBookL2" "XBTUSD" =
        .ok ("orderBookL2_25" ++ ":" ++ "XBTUSD")
      ∧ (bitmex.handle_message
           ⟨none, none, some "orderBookL2_25", some "partial", [],
             some "XBTUSD"⟩
           ⟨[("XBTUSD", "BTC/USD")], []⟩).2.1 =
         [WaiterEvent.resolved ("orderBookL2_25" ++ ":" ++ "XBTUSD")]) := by
  refine ⟨?_, ?_, ?_, ⟨rfl, by decide⟩, ⟨rfl, by decide⟩⟩
  · intro mid
    rfl
  · intro m st ev k hev hres
    unfold bitmex.handle_message at hev
    split at hev
    · next evOpt heq =>
      rcases bitmex_hem_never_resolves m with h | ⟨a, e, h⟩
      · rw [heq] at h
        simp only at h
        subst h
        simp at hev
      · rw [heq] at h
        simp only at h
        subst h
        simp only [List.mem_singleton] at hev
        rw [hres] at hev
        exact absurd hev (by simp)
    · cases htab : m.table with
      | none =>
        simp [htab] at hev
      | some t =>
        simp only [htab] at hev
        by_cases hin : t ∈ bitmex.order_book_tables
        · rw [if_pos hin] at hev
          rcases bitmex_hob_resolved_key m st ev hev with
            ⟨t', mid, htab', rfl⟩
          rw [htab] at htab'
          injection htab' with ht'
          subst ht'
          injection hres with hk
          exact ⟨t, mid, rfl, hin, hk.symm⟩
        · rw [if_neg hin] at hev
          simp at hev
  · intro t ht mid mid'
    have hmem : t = "orderBookL2" ∨ t = "orderBookL2_25" ∨
        t = "orderBook10" := by
      simpa [bitmex.order_book_tables] using ht
    rcases hmem with rfl | rfl | rfl
    · exact channel_key_ne _ _ (by decide) (by decide) (by decide) mid mid'
    · exact channel_key_ne _ _ (by decide) (by decide) (by decide) mid mid'
    · exact channel_key_ne _ _ (by decide) (by decide) (by decide) mid mid'

/-- Concrete instance of C10: the key awaited for limit 10 can never equal
a key the order-book handler resolves, and a resolved key carries one of
the dispatched tables. -/
theorem bitmex_orderBookL10_key_witness :
    ("orderBookL10" ++ ":" ++ "XBTUSD" ≠ "orderBookL2" ++ ":" ++ "XBTUSD")
    ∧ ∃ t mid,
        (⟨none, none, some "orderBookL2", some "partial", [],
          some "XBTUSD"⟩ : bitmex.Frame).table = some t
        ∧ t ∈ bitmex.order_book_tables
        ∧ "orderBookL2" ++ ":" ++ "XBTUSD" = t ++ ":" ++ mid := by
  constructor
  · exact bitmex_orderBookL10_key_never_resolved.2.2.1 "orderBookL2"
      (by decide) "XBTUSD" "XBTUSD"
  · exact bitmex_orderBookL10_key_never_resolved.2.1
      ⟨none, none, some "orderBookL2", some "partial", [], some "XBTUSD"⟩
      ⟨[("XBTUSD", "BTC/USD")], []⟩
      (WaiterEvent.resolved ("orderBookL2" ++ ":" ++ "XBTUSD"))
      ("orderBookL2" ++ ":" ++ "XBTUSD")
      (by decide) rfl
